import Mathlib

/-!
Verification development for the process execution and supervision engine in
`src/src-tauri/src/core/python_bridge.rs`.

The Rust code is shallowly embedded: pure functions become Lean functions on
`String`/`Nat`/`Int`; filesystem and process effects become an explicit effect
trace (`Eff`) plus a small filesystem state (`FS`); fallible code returns
`Except String`.  External library behaviour (serde_json parsing, the sibling
process behaviour, the tokio runtime) is abstracted as explicit function
parameters or environment fields, so every theorem quantifies over it.
Machine floats appear only as inert payload carriers (`Float` fields that are
never computed with); the one float computation in the source, the backoff
formula, is modelled in `Nat`/`Int`, which is exact on its entire reachable
range (the f64 values involved are all sums of a few powers of two times
small integers, far below 2^53, and division by 4 of such values is exact).
-/

namespace PythonBridge

/-- Single-quote character, used when assembling Rust format-string output. -/
def sq : String := String.singleton (Char.ofNat 39)

/-- Boolean prefix test on character lists. -/
def listPrefixOf : List Char → List Char → Bool
  | [], _ => true
  | _ :: _, [] => false
  | a :: as, b :: bs => a == b && listPrefixOf as bs

/-- Boolean infix test on character lists. -/
def listInfixOf (pat : List Char) : List Char → Bool
  | [] => pat.isEmpty
  | b :: bs => listPrefixOf pat (b :: bs) || listInfixOf pat bs

/-- Rust `str::contains(pat)` for a string pattern: `pat` occurs as a
contiguous substring of `s`. -/
def strContains (s pat : String) : Bool := listInfixOf pat.toList s.toList

/-- Rust `str::contains(ch)` for a char pattern: `ch` occurs in `s`. -/
def strContainsChar (s : String) (c : Char) : Bool := s.toList.contains c

/-- Split a character list at every separator matching `p` (keeping empty
segments, like Rust `str::split`). -/
def splitOnPred (p : Char → Bool) : List Char → List (List Char)
  | [] => [[]]
  | c :: cs =>
    match splitOnPred p cs with
    | [] => [[]]
    | g :: gs => if p c then [] :: g :: gs else (c :: g) :: gs

-- --- Constants for timeout & retry (python_bridge.rs lines 10-15) ---

def PYTHON_COMMAND_TIMEOUT : Nat := 60

def PYTHON_EXTRACTION_TIMEOUT : Nat := 300

def PYTHON_MAX_RETRIES : Nat := 3

def PYTHON_BASE_DELAY_MS : Nat := 1000

def PYTHON_MAX_DELAY_MS : Nat := 15000

/-- Allowed file extensions (defense-in-depth), python_bridge.rs line 18. -/
def ALLOWED_EXTENSIONS : List String := [".txt", ".md", ".doc", ".docx", ".rtf"]

/-- The `DANGEROUS_CHARS` list local to `validate_file_path`
(pipe, semicolon, ampersand, dollar, backtick, gt, lt, bang, braces). -/
def PATH_DANGEROUS_CHARS : List Char :=
  ['|', ';', '&', '$', Char.ofNat 96, '>', '<', '!', Char.ofNat 123, Char.ofNat 125]

/-- The `DANGEROUS_CHARS` list local to `sanitize_python_args`
(pipe, semicolon, ampersand, dollar, backtick). -/
def ARG_DANGEROUS_CHARS : List Char := ['|', ';', '&', '$', Char.ofNat 96]

-- --- Rust `std::path::Path` file-name / extension model ---

/-- Model of Rust `Path::file_name`: last path component after splitting on
separators, skipping empty and `.` components; a trailing `..` has no file
name.  (Prefix/root subtleties of Windows paths are not needed by any
reachable input.) -/
def rustFileName (path : String) : Option String :=
  let comps := (splitOnPred (fun c => c == '/' || c == '\\') path.toList).filter
    fun s => !s.isEmpty && s != ['.']
  match comps.getLast? with
  | none => none
  | some s => if s == ['.', '.'] then none else some s.asString

/-- Split a file name at its last dot: `some (before, after)`, or `none` when
the name has no dot.  Mirrors Rust `rsplit_file_at_dot` via `rsplitn(2, dot)`. -/
def splitAtLastDot (s : String) : Option (String × String) :=
  let rev := s.toList.reverse
  match rev.findIdx? (· == '.') with
  | none => none
  | some j => some ((rev.drop (j + 1)).reverse.asString, (rev.take j).reverse.asString)

/-- Model of Rust `Path::extension`: portion of the file name after the final
dot; `none` when there is no file name, no dot, or the name is a dotfile
(begins with its only dot); `some ""` for a trailing dot. -/
def rustExtension (path : String) : Option String :=
  match rustFileName path with
  | none => none
  | some file =>
    if file == ".." then none
    else
      match splitAtLastDot file with
      | none => none
      | some (before, after) => if before == "" then none else some after

/-- ASCII lowercasing of a string, the fragment of Rust `str::to_lowercase`
exercised by extension strings. -/
def asciiToLower (s : String) : String := (s.toList.map Char.toLower).asString

-- --- Input Validation (python_bridge.rs lines 190-239) ---

/-- Model of `validate_file_path`: reject path traversal (`..`), shell metacharacters,
then restrict to the allow-listed extensions (case-insensitive). -/
def validate_file_path (file_path : String) : Except String Unit :=
  if strContains file_path ".." then
    .error "Invalid file path: path traversal detected"
  else
    match PATH_DANGEROUS_CHARS.find? (fun c => strContainsChar file_path c) with
    | some ch =>
      .error ("Invalid file path: forbidden character " ++ sq ++ String.singleton ch
        ++ sq ++ " detected")
    | none =>
      match rustExtension file_path with
      | some ext =>
        let ext_str := "." ++ asciiToLower ext
        if ALLOWED_EXTENSIONS.contains ext_str then .ok ()
        else
          .error ("Unsupported file type " ++ sq ++ ext_str ++ sq ++ ". Only "
            ++ String.intercalate ", " ALLOWED_EXTENSIONS ++ " are allowed.")
      | none => .error "File has no extension. Only .txt and .md are allowed."

/-- Model of `sanitize_python_args`: reject any argument containing a dangerous
character; the first offending (argument, character) pair, argument-major,
names the error. -/
def sanitize_python_args : List String → Except String Unit
  | [] => .ok ()
  | arg :: rest =>
    match ARG_DANGEROUS_CHARS.find? (fun c => strContainsChar arg c) with
    | some ch =>
      .error ("Invalid argument: forbidden character " ++ sq ++ String.singleton ch
        ++ sq ++ " detected in " ++ sq ++ arg ++ sq)
    | none => sanitize_python_args rest

-- --- Exponential Backoff (python_bridge.rs lines 244-271) ---

/-- Model of `calculate_python_backoff_delay`, with the `DefaultHasher` output on the
attempt number abstracted as the argument `hash` (the Rust hasher is a fixed
keyed function of the attempt alone, hence deterministic).  The f64 arithmetic
of the source is exact on every reachable value and is rendered in `Nat`;
the final `as u64` cast of a (provably nonnegative) `i64` is rendered as a
wrap modulo 2^64. -/
def calculate_python_backoff_delay (hash : Nat) (attempt : Nat) : Nat :=
  let exponential_delay := PYTHON_BASE_DELAY_MS * 2 ^ (attempt - 1)
  let capped_delay := min exponential_delay PYTHON_MAX_DELAY_MS
  let jitter_range := capped_delay / 4
  let jitter : Int :=
    if jitter_range > 0 then (hash % (jitter_range * 2) : Nat) - (jitter_range : Int)
    else 0
  max 100 (min PYTHON_MAX_DELAY_MS (((capped_delay : Int) + jitter) % (2 ^ 64)).toNat)

-- --- JSON values (the fragment of serde_json::Value the engine consults) ---

/-- JSON value tree.  The engine only ever reads boolean fields of objects;
floats occur solely as inert payload (serialized f64 fields of results). -/
inductive JValue where
  | null
  | bool (b : Bool)
  | num (n : Int)
  | float (x : Float)
  | str (s : String)
  | arr (xs : List JValue)
  | obj (fields : List (String × JValue))

/-- Model of `serde_json::Value::get(key)` on an object (None on any other shape). -/
def jget (v : JValue) (key : String) : Option JValue :=
  match v with
  | .obj fields => (fields.find? (fun kv => kv.1 == key)).map (fun kv => kv.2)
  | _ => none

/-- Model of `Value::as_bool`. -/
def jasBool : JValue → Option Bool
  | .bool b => some b
  | _ => none

/-- An `Option<String>` serialized into JSON (null or string). -/
def joptStr : Option String → JValue
  | none => .null
  | some s => .str s

-- --- Effect trace ---

/-- One observable side effect of the engine.  `execCall` is a trace marker
recorded at each entry into `execute_python_command`, used to count executor
invocations; the others mirror filesystem writes, event emissions, process
spawns/kills and backoff sleeps of the source. -/
inductive Eff where
  | createDir (path : String)
  | openArchive (path : String)
  | writeFile (path : String)
  | emitEvent (name : String) (payload : JValue)
  | emitPythonError (errorType message : String) (attempt maxAttempts : Nat)
  | spawn (exe script : String) (args : List String)
  | killChild
  | sleepMs (ms : Nat)
  | execCall (timeoutSecs : Nat)

def Eff.isSpawn : Eff → Bool
  | .spawn _ _ _ => true
  | _ => false

def Eff.isExecCall : Eff → Bool
  | .execCall _ => true
  | _ => false

def Eff.isOpenArchive : Eff → Bool
  | .openArchive _ => true
  | _ => false

def Eff.isPythonError : Eff → Bool
  | .emitPythonError _ _ _ _ => true
  | _ => false

def Eff.isWriteFile : Eff → Bool
  | .writeFile _ => true
  | _ => false

def Eff.isEmit : Eff → Bool
  | .emitEvent _ _ => true
  | .emitPythonError _ _ _ _ => true
  | _ => false

-- --- Application paths (python_bridge.rs lines 146-185) ---

/-- The two Tauri-provided base directories every path getter derives from. -/
structure AppPaths where
  appDataDir : String
  resourceDir : String

def get_python_dir (p : AppPaths) : String := p.appDataDir ++ "/python312"

def get_python_exe (p : AppPaths) : String := get_python_dir p ++ "/python.exe"

def get_python_scripts_path (p : AppPaths) : String := get_python_dir p ++ "/scripts"

def get_chromadb_dir (p : AppPaths) : String := p.appDataDir ++ "/chroma_db"

/-- Rust `{:?}` (Debug) rendering of a path: quoted. -/
def dbgStr (s : String) : String := "\"" ++ s ++ "\""

/-- Rust `{:?}` (Debug) rendering of `Option<i32>`. -/
def fmtOptInt : Option Int → String
  | some c => "Some(" ++ toString c ++ ")"
  | none => "None"

-- --- Filesystem state observed by the bootstrapper and executor ---

/-- One entry of the bundled zip archive (name relative to the target dir). -/
structure ZipEntry where
  name : String
  isDir : Bool

/-- The slice of filesystem state the engine consults.  `zipReadError = some e`
models `ZipArchive::new` failing with message `e`; per-file IO write errors
during extraction are not modelled (no claim depends on them). -/
structure FS where
  pythonExeExists : Bool
  scriptExists : Bool
  zipAtDirect : Bool
  zipAtNested : Bool
  zipReadError : Option String
  zipEntries : List ZipEntry

/-- Model of `get_python_zip_path`: primary resource location if present, else the
nested dev-mode location. -/
def get_python_zip_path (p : AppPaths) (fs : FS) : String :=
  if fs.zipAtDirect then p.resourceDir ++ "/python312.zip"
  else p.resourceDir ++ "/resources/python312.zip"

-- --- Runtime bootstrap (python_bridge.rs lines 275-328) ---

/-- Model of `ensure_python_extracted`: fast path when `python.exe` exists; otherwise
locate the archive (error if absent), create the target directory, open and
read the archive, and extract every entry.  Returns the result, the effect
trace, and the updated filesystem. -/
def ensure_python_extracted (p : AppPaths) (fs : FS) :
    Except String Unit × List Eff × FS :=
  let python_dir := get_python_dir p
  if fs.pythonExeExists then (.ok (), [], fs)
  else
    let zip_path := get_python_zip_path p fs
    if !(fs.zipAtDirect || fs.zipAtNested) then
      (.error ("Python archive not found at: " ++ dbgStr zip_path ++ ". Reinstall MOBIUS."),
        [], fs)
    else
      let effs0 := [Eff.createDir python_dir, Eff.openArchive zip_path]
      match fs.zipReadError with
      | some e => (.error ("Failed to read Python archive: " ++ e), effs0, fs)
      | none =>
        let entryEffs := fs.zipEntries.map fun en =>
          if en.isDir then Eff.createDir (python_dir ++ "/" ++ en.name)
          else Eff.writeFile (python_dir ++ "/" ++ en.name)
        let fs1 := { fs with
          pythonExeExists := fs.zipEntries.any fun en => !en.isDir && en.name == "python.exe",
          scriptExists := fs.scriptExists
            || fs.zipEntries.any fun en => !en.isDir && en.name == "scripts/document_processor.py" }
        (.ok (), effs0 ++ entryEffs, fs1)

-- --- stderr draining (python_bridge.rs lines 388-412) ---

/-- One iteration of the stderr loop body: a line that parses as JSON with a
true `progress` (resp. `file_result`) field is forwarded as an event; any
other line is destined for the diagnostic buffer (`none`). -/
def classify_stderr_line (parse : String → Option JValue) (line : String) : Option Eff :=
  match parse line with
  | some parsed =>
    if (jget parsed "progress").bind jasBool == some true then
      some (.emitEvent "document-processing" parsed)
    else if (jget parsed "file_result").bind jasBool == some true then
      some (.emitEvent "batch-file-result" parsed)
    else none
  | none => none

/-- The two `collected` pushes of the loop body: a newline separator when the
buffer is nonempty, then the line itself. -/
def diag_append (collected line : String) : String :=
  (if collected.isEmpty then collected else collected.push '\n') ++ line

/-- Newline-joined diagnostic buffer built from a list of kept lines. -/
def join_diagnostics (ls : List String) : String := ls.foldl diag_append ""

/-- The stderr reader loop: classify each line; forwarded lines become events,
the rest accumulate (newline-separated) into the diagnostic buffer. -/
def stderr_drain (parse : String → Option JValue) (collected : String) :
    List String → List Eff × String
  | [] => ([], collected)
  | line :: rest =>
    match classify_stderr_line parse line with
    | some ev =>
      let res := stderr_drain parse collected rest
      (ev :: res.1, res.2)
    | none => stderr_drain parse (diag_append collected line) rest

-- --- Process executor (python_bridge.rs lines 331-445) ---

/-- Child-process behaviour for one attempt: the stdout payload, the stderr
lines in the order the child writes them, and the exit code
(`status.success()` iff the code is `Some(0)`). -/
structure ChildSpec where
  stdoutData : String
  stderrLines : List String
  exitCode : Option Int

/-- Environment of one physical execution attempt: whether the spawn syscall
succeeds, the child behaviour, whether the whole drain-and-wait completes
inside the deadline, and how many stderr lines were drained before a timeout
fired. -/
structure AttemptEnv where
  spawnOk : Bool
  spawnErrMsg : String
  child : ChildSpec
  finishesInTime : Bool
  linesBeforeTimeout : Nat

/-- Model of `execute_python_command`: bootstrap, sanitize, existence checks, spawn,
concurrent drain under the deadline, outcome classification.  Returns the
result, effect trace (headed by the `execCall` marker), and updated
filesystem. -/
def execute_python_command (p : AppPaths) (parse : String → Option JValue)
    (a : AttemptEnv) (fs : FS) (script_name : String) (args : List String)
    (timeoutSecs : Nat) : Except String String × List Eff × FS :=
  let marker := Eff.execCall timeoutSecs
  match ensure_python_extracted p fs with
  | (.error e, effs, fs1) => (.error e, marker :: effs, fs1)
  | (.ok _, effs, fs1) =>
    match sanitize_python_args args with
    | .error e => (.error e, marker :: effs, fs1)
    | .ok _ =>
      let python_exe := get_python_exe p
      let script_path := get_python_scripts_path p ++ "/" ++ script_name
      if !fs1.pythonExeExists then
        (.error ("Bundled Python not found: " ++ dbgStr python_exe), marker :: effs, fs1)
      else if !fs1.scriptExists then
        (.error ("Python script not found: " ++ dbgStr script_path), marker :: effs, fs1)
      else if !a.spawnOk then
        (.error ("Failed to spawn Python process: " ++ a.spawnErrMsg), marker :: effs, fs1)
      else
        let spawnEff := Eff.spawn python_exe script_path args
        if !a.finishesInTime then
          let res := stderr_drain parse "" (a.child.stderrLines.take a.linesBeforeTimeout)
          (.error ("Python command timed out after " ++ toString timeoutSecs ++ "s"),
            marker :: effs ++ spawnEff :: res.1 ++ [Eff.killChild], fs1)
        else
          let res := stderr_drain parse "" a.child.stderrLines
          if a.child.exitCode == some 0 then
            (.ok a.child.stdoutData, marker :: effs ++ spawnEff :: res.1, fs1)
          else
            (.error ("Python process failed with exit code " ++ fmtOptInt a.child.exitCode
                ++ ": " ++ res.2),
              marker :: effs ++ spawnEff :: res.1, fs1)

-- --- Retry supervisor (python_bridge.rs lines 448-498) ---

/-- Classification of an attempt error into the `python-error` event type. -/
def python_error_type (e : String) : String :=
  if strContains e "timed out" then "timeout"
  else if strContains e "Failed to spawn" then "spawn_error"
  else "execution_error"

/-- The `for attempt in 1..=PYTHON_MAX_RETRIES` loop, recursing over the list
of remaining attempt numbers.  `step n fs` is one executor invocation at
attempt `n` (the physical environment may differ per attempt); `hashFn n` is
the `DefaultHasher` output seeding the backoff jitter of attempt `n`. -/
def retry_loop (hashFn : Nat → Nat)
    (step : Nat → FS → Except String String × List Eff × FS) (fs : FS)
    (last_error : String) : List Nat → Except String String × List Eff × FS
  | [] =>
    (.error ("Python command failed after " ++ toString PYTHON_MAX_RETRIES
        ++ " attempts: " ++ last_error),
      [], fs)
  | attempt :: rest =>
    match step attempt fs with
    | (.ok output, effs, fs1) => (.ok output, effs, fs1)
    | (.error e, effs, fs1) =>
      let ev := Eff.emitPythonError (python_error_type e) e attempt PYTHON_MAX_RETRIES
      let sleeps :=
        if attempt < PYTHON_MAX_RETRIES then
          [Eff.sleepMs (calculate_python_backoff_delay (hashFn attempt) attempt)]
        else []
      let res := retry_loop hashFn step fs1 e rest
      (res.1, effs ++ ev :: sleeps ++ res.2.1, res.2.2)

/-- Model of `execute_python_command_with_retry`: run the attempt loop for attempts
`1..=PYTHON_MAX_RETRIES` with an initially empty last error. -/
def execute_python_command_with_retry (hashFn : Nat → Nat)
    (step : Nat → FS → Except String String × List Eff × FS) (fs : FS) :
    Except String String × List Eff × FS :=
  retry_loop hashFn step fs "" (List.range' 1 PYTHON_MAX_RETRIES)

-- --- Result payload types (python_bridge.rs lines 21-143) ---

/-- Rich document summary returned after processing. -/
structure DocumentSummary where
  file_name : String
  file_size_bytes : Nat
  file_size_mb : Float
  word_count : Nat
  char_count : Nat
  chunks_created : Nat
  sections_detected : List String
  preview : String
  processing_time : Float

/-- Response from the Python document processor. -/
structure DocumentProcessResult where
  success : Bool
  file_path : String
  chunks_created : Nat
  error : Option String
  processing_time : Option Float
  document_summary : Option DocumentSummary

/-- Aggregate result from batch processing (decoded from stdout). -/
structure BatchProcessResult where
  results : List DocumentProcessResult
  success_count : Nat
  error_count : Nat
  total_files : Nat
  total_time : Float

-- --- Command environment ---

/-- Everything external a command invocation observes: the Tauri paths, the
initial filesystem, the serde_json line parser, the `DefaultHasher` output per
attempt, the per-attempt physical behaviour, and the two typed serde decoders
(each returning the serde error message on the error side). -/
structure BridgeEnv where
  paths : AppPaths
  fs0 : FS
  parse : String → Option JValue
  hashFn : Nat → Nat
  attempts : Nat → AttemptEnv
  decodeDoc : String → Except String DocumentProcessResult
  decodeBatch : String → Except String BatchProcessResult

-- --- process_document (python_bridge.rs lines 562-633) ---

/-- Model of `process_document`: validate the path, emit the starting event, build the
argument vector, run the executor under the retry supervisor with the
extraction timeout, decode, and emit the completion event. -/
def process_document (env : BridgeEnv) (file_path : String)
    (collection_name : Option String) (use_ocr : Option Bool)
    (password : Option String) (smart : Option Bool) :
    Except String DocumentProcessResult × List Eff × FS :=
  match validate_file_path file_path with
  | .error e => (.error e, [], env.fs0)
  | .ok _ =>
    let startEv := Eff.emitEvent "document-processing"
      (JValue.obj [("status", JValue.str "starting"), ("file", JValue.str file_path)])
    let db_path := get_chromadb_dir env.paths
    let args := ["--json", "--db-path", db_path, "process", file_path,
        "--collection", collection_name.getD "documents"]
      ++ (match use_ocr with
          | some false => ["--no-ocr"]
          | _ => [])
      ++ (match password with
          | some pwd => ["--password", pwd]
          | none => [])
      ++ (if smart.getD false then ["--smart"] else [])
    let step := fun attempt fs =>
      execute_python_command env.paths env.parse (env.attempts attempt) fs
        "document_processor.py" args PYTHON_EXTRACTION_TIMEOUT
    match execute_python_command_with_retry env.hashFn step env.fs0 with
    | (.error e, effs, fs1) => (.error e, startEv :: effs, fs1)
    | (.ok output, effs, fs1) =>
      match env.decodeDoc output with
      | .error de => (.error ("Failed to parse Python output: " ++ de), startEv :: effs, fs1)
      | .ok result =>
        let status := if result.success then "complete" else "failed"
        let doneEv := Eff.emitEvent "document-processing"
          (JValue.obj [("status", JValue.str status), ("file", JValue.str file_path),
            ("chunks", JValue.num (result.chunks_created : Int)),
            ("error", joptStr result.error)])
        (.ok result, startEv :: effs ++ [doneEv], fs1)

-- --- process_document_batch (python_bridge.rs lines 956-1025) ---

/-- The upfront validation loop of `process_document_batch`: first failing
path aborts with its error. -/
def validate_all_paths : List String → Except String Unit
  | [] => .ok ()
  | fp :: rest =>
    match validate_file_path fp with
    | .error e => .error e
    | .ok _ => validate_all_paths rest

/-- The argument vector built by `process_document_batch`. -/
def batch_args (db_path : String) (file_paths : List String)
    (collection_name : Option String) (smart : Option Bool) : List String :=
  ["--json", "--db-path", db_path, "batch", "--files"]
    ++ file_paths
    ++ ["--collection", collection_name.getD "documents"]
    ++ (if smart.getD false then ["--smart"] else [])

/-- The dynamic batch deadline: 300s base + 120s per file, capped at 1 hour
(python_bridge.rs line 1001). -/
def batch_timeout_secs (file_count : Nat) : Nat := min (300 + 120 * file_count) 3600

/-- Model of `process_document_batch`: reject an empty list, validate every path
upfront, emit the starting event, compute the file-count-scaled deadline
`min (300 + 120 * n) 3600` seconds, invoke the executor exactly once (no
retry), decode the aggregate result, and emit the completion event. -/
def process_document_batch (env : BridgeEnv) (file_paths : List String)
    (collection_name : Option String) (smart : Option Bool) :
    Except String BatchProcessResult × List Eff × FS :=
  let file_count := file_paths.length
  if file_paths.isEmpty then
    (.error "No files provided for batch processing", [], env.fs0)
  else
    match validate_all_paths file_paths with
    | .error e => (.error e, [], env.fs0)
    | .ok _ =>
      let startEv := Eff.emitEvent "document-processing"
        (JValue.obj [("status", JValue.str "starting"),
          ("batch_total", JValue.num (file_count : Int))])
      let db_path := get_chromadb_dir env.paths
      let args := batch_args db_path file_paths collection_name smart
      let timeout_secs := batch_timeout_secs file_count
      match execute_python_command env.paths env.parse (env.attempts 1) env.fs0
          "document_processor.py" args timeout_secs with
      | (.error e, effs, fs1) => (.error e, startEv :: effs, fs1)
      | (.ok output, effs, fs1) =>
        match env.decodeBatch output with
        | .error de => (.error ("Failed to parse batch output: " ++ de), startEv :: effs, fs1)
        | .ok result =>
          let doneEv := Eff.emitEvent "document-processing"
            (JValue.obj [("status", JValue.str "complete"),
              ("batch_total", JValue.num (result.total_files : Int)),
              ("success_count", JValue.num (result.success_count : Int)),
              ("error_count", JValue.num (result.error_count : Int)),
              ("total_time", JValue.float result.total_time)])
          (.ok result, startEv :: effs ++ [doneEv], fs1)

-- --- Concrete fixtures used by witnesses ---

/-- Fixture: application paths. -/
def fxPaths : AppPaths := ⟨"appdata", "res"⟩

/-- Fixture: filesystem with the interpreter and script already present. -/
def fxFS : FS := ⟨true, true, false, false, none, []⟩

/-- Fixture: no interpreter yet, archive present with a lone `python.exe`. -/
def fxFSNoExe : FS := ⟨false, false, true, false, none, [⟨"python.exe", false⟩]⟩

/-- Fixture: serde parser that parses nothing. -/
def fxParse : String → Option JValue := fun _ => none

/-- Fixture: serde parser recognising the line `PROG` as a progress object. -/
def fxParseProg : String → Option JValue := fun l =>
  if l == "PROG" then some (JValue.obj [("progress", JValue.bool true)]) else none

/-- Fixture: child that exits 0 with empty output. -/
def fxChild : ChildSpec := ⟨"out", [], some 0⟩

/-- Fixture: child that exits 1 after a progress line and a diagnostic line. -/
def fxChildFail : ChildSpec := ⟨"", ["PROG", "bad"], some 1⟩

/-- Fixture: attempt that spawns and finishes in time. -/
def fxAttempt : AttemptEnv := ⟨true, "", fxChild, true, 0⟩

/-- Fixture: attempt whose deadline fires before completion. -/
def fxAttemptTimeout : AttemptEnv := ⟨true, "", fxChild, false, 0⟩

/-- Fixture: attempt whose child fails after emitting stderr lines. -/
def fxAttemptFail : AttemptEnv := ⟨true, "", fxChildFail, true, 0⟩

/-- Fixture: full command environment over `fxFS` / `fxAttempt`. -/
def fxEnv : BridgeEnv :=
  ⟨fxPaths, fxFS, fxParse, fun _ => 0, fun _ => fxAttempt,
    fun _ => .error "bad json", fun _ => .error "bad json"⟩

/-- Fixture: an executor step that always fails with `boom` and no effects. -/
def fxStepFail : Nat → FS → Except String String × List Eff × FS :=
  fun _ fs => (.error "boom", [], fs)

/-- Fixture: an executor step succeeding with output `out` and no effects. -/
def fxStepOk : Nat → FS → Except String String × List Eff × FS :=
  fun _ fs => (.ok "out", [], fs)

/-- Fixture: ten valid batch file names (the spec's 10-file scenario). -/
def fxFiles : List String :=
  ["a0.txt", "a1.txt", "a2.txt", "a3.txt", "a4.txt",
   "a5.txt", "a6.txt", "a7.txt", "a8.txt", "a9.txt"]

-- --- Helper lemmas ---

/-- The stderr loop equals forward-every-marked-line plus join-the-rest: its
events are exactly the classified lines in order and its buffer is the fold of
the unclassified lines onto the incoming buffer. -/
theorem stderr_drain_eq (parse : String → Option JValue) (ls : List String) :
    ∀ c : String,
    stderr_drain parse c ls =
      (ls.filterMap (classify_stderr_line parse),
        (ls.filter fun l => (classify_stderr_line parse l).isNone).foldl diag_append c) := by
  induction ls with
  | nil => intro c; simp [stderr_drain]
  | cons l rest ih =>
    intro c
    cases h : classify_stderr_line parse l with
    | some ev => simp [stderr_drain, h, ih]
    | none => simp [stderr_drain, h, ih]

/-- A classified stderr line is forwarded as a plain event emission. -/
theorem classify_stderr_line_flat (parse : String → Option JValue) (l : String)
    (ev : Eff) (h : classify_stderr_line parse l = some ev) :
    ev.isSpawn = false ∧ ev.isExecCall = false ∧ ev.isPythonError = false := by
  unfold classify_stderr_line at h
  cases hp : parse l with
  | none => simp [hp] at h
  | some v =>
    simp only [hp] at h
    split at h
    · injection h with h2
      subst h2
      exact ⟨rfl, rfl, rfl⟩
    · split at h
      · injection h with h2
        subst h2
        exact ⟨rfl, rfl, rfl⟩
      · simp at h

/-- Every event produced by the stderr loop is a plain event emission. -/
theorem stderr_drain_events_flat (parse : String → Option JValue) (c : String)
    (ls : List String) :
    ∀ e ∈ (stderr_drain parse c ls).1,
    e.isSpawn = false ∧ e.isExecCall = false ∧ e.isPythonError = false := by
  intro e he
  rw [stderr_drain_eq] at he
  simp only [List.mem_filterMap] at he
  obtain ⟨l, _, hcl⟩ := he
  exact classify_stderr_line_flat parse l e hcl

/-- Every effect of the bootstrapper is a filesystem effect: never a spawn,
an executor-entry marker, or a python-error emission. -/
theorem ensure_effs_flat (p : AppPaths) (fs : FS) :
    ∀ e ∈ (ensure_python_extracted p fs).2.1,
    e.isSpawn = false ∧ e.isExecCall = false ∧ e.isPythonError = false := by
  intro e he
  unfold ensure_python_extracted at he
  split at he
  · simp at he
  · split at he
    · simp at he
    · cases hz : fs.zipReadError with
      | some msg =>
        simp only [hz] at he
        simp at he
        rcases he with rfl | rfl
        · exact ⟨rfl, rfl, rfl⟩
        · exact ⟨rfl, rfl, rfl⟩
      | none =>
        simp only [hz] at he
        simp [List.mem_map] at he
        rcases he with rfl | rfl | ⟨en, _, rfl⟩
        · exact ⟨rfl, rfl, rfl⟩
        · exact ⟨rfl, rfl, rfl⟩
        · cases hd : en.isDir <;> simp [hd, Eff.isSpawn, Eff.isExecCall, Eff.isPythonError]

/-- Flatness transfers to vanishing `countP` for the three predicates. -/
theorem countP_zero_of_flat {l : List Eff}
    (h : ∀ e ∈ l, e.isSpawn = false ∧ e.isExecCall = false ∧ e.isPythonError = false) :
    l.countP Eff.isSpawn = 0 ∧ l.countP Eff.isExecCall = 0 ∧
      l.countP Eff.isPythonError = 0 := by
  refine ⟨List.countP_eq_zero.mpr ?_, List.countP_eq_zero.mpr ?_,
    List.countP_eq_zero.mpr ?_⟩ <;> intro e he <;>
    simp [(h e he).1, (h e he).2.1, (h e he).2.2]

/-- Every invocation of the executor records exactly one `execCall` marker —
carrying the timeout it was given — at the head of its trace, and the rest of
the trace holds no further markers and no python-error emissions. -/
theorem execute_trace_marker (p : AppPaths) (parse : String → Option JValue)
    (a : AttemptEnv) (fs : FS) (script_name : String) (args : List String)
    (t : Nat) :
    List.countP Eff.isExecCall (execute_python_command p parse a fs script_name args t).2.1 = 1 ∧
    Eff.execCall t ∈ (execute_python_command p parse a fs script_name args t).2.1 ∧
    List.countP Eff.isPythonError
      (execute_python_command p parse a fs script_name args t).2.1 = 0 := by
  have hflat := ensure_effs_flat p fs
  unfold execute_python_command
  rcases hE : ensure_python_extracted p fs with ⟨r0, effs0, fs1⟩
  rw [hE] at hflat
  have h0 := countP_zero_of_flat hflat
  cases r0 with
  | error e =>
    simp [List.countP_cons, h0.2.1, h0.2.2, Eff.isExecCall, Eff.isPythonError]
  | ok u =>
    dsimp only
    cases hs : sanitize_python_args args with
    | error e =>
      simp [List.countP_cons, h0.2.1, h0.2.2, Eff.isExecCall, Eff.isPythonError]
    | ok u2 =>
      dsimp only
      have hsd1 := countP_zero_of_flat
        (stderr_drain_events_flat parse "" (a.child.stderrLines.take a.linesBeforeTimeout))
      have hsd2 := countP_zero_of_flat
        (stderr_drain_events_flat parse "" a.child.stderrLines)
      split
      · simp [List.countP_cons, h0.2.1, h0.2.2, Eff.isExecCall, Eff.isPythonError]
      · split
        · simp [List.countP_cons, h0.2.1, h0.2.2, Eff.isExecCall, Eff.isPythonError]
        · split
          · simp [List.countP_cons, h0.2.1, h0.2.2, Eff.isExecCall, Eff.isPythonError]
          · split
            · simp [List.countP_cons, List.countP_append, h0.2.1, h0.2.2,
                hsd1.2.1, hsd1.2.2, Eff.isExecCall, Eff.isPythonError, Eff.isSpawn]
            · split
              · simp [List.countP_cons, List.countP_append, h0.2.1, h0.2.2,
                  hsd2.2.1, hsd2.2.2, Eff.isExecCall, Eff.isPythonError, Eff.isSpawn]
              · simp [List.countP_cons, List.countP_append, h0.2.1, h0.2.2,
                  hsd2.2.1, hsd2.2.2, Eff.isExecCall, Eff.isPythonError, Eff.isSpawn]

/-- A list containing a path that fails validation fails the upfront
validation loop. -/
theorem validate_all_paths_err {fp : String} {l : List String}
    (hmem : fp ∈ l) (hfp : (validate_file_path fp).isOk = false) :
    ∃ e, validate_all_paths l = .error e := by
  induction l with
  | nil => simp at hmem
  | cons a rest ih =>
    cases hv : validate_file_path a with
    | error e => exact ⟨e, by simp [validate_all_paths, hv]⟩
    | ok u =>
      rcases List.mem_cons.mp hmem with rfl | hmem2
      · rw [hv] at hfp
        simp [Except.isOk, Except.toBool] at hfp
      · obtain ⟨e, he⟩ := ih hmem2
        exact ⟨e, by simp [validate_all_paths, hv, he]⟩

/-- An argument list in which no argument contains a dangerous character
passes sanitization. -/
theorem sanitize_ok_of_clean (args : List String)
    (h : args.all (fun arg => ARG_DANGEROUS_CHARS.all fun c => !strContainsChar arg c) = true) :
    sanitize_python_args args = .ok () := by
  induction args with
  | nil => rfl
  | cons a rest ih =>
    rw [List.all_cons, Bool.and_eq_true] at h
    have hfind : ARG_DANGEROUS_CHARS.find? (fun c => strContainsChar a c) = none := by
      rw [List.find?_eq_none]
      intro c hc
      have hcl := List.all_eq_true.mp h.1 c hc
      simp only [Bool.not_eq_true'] at hcl
      simp [hcl]
    simp [sanitize_python_args, hfind, ih h.2]

-- --- Claim theorems ---

/-- C3: for every attempt number `n ≥ 1` and every value of the (fixed,
attempt-seeded) hasher, `calculate_python_backoff_delay` is deterministic in
its inputs and its value always lies within `[100, 15000]` milliseconds — in
particular it is never zero. -/
theorem c3_backoff_deterministic_and_bounded (hash n : Nat) (h : 1 ≤ n) :
    calculate_python_backoff_delay hash n = calculate_python_backoff_delay hash n ∧
    100 ≤ calculate_python_backoff_delay hash n ∧
    calculate_python_backoff_delay hash n ≤ 15000 :=
  ⟨rfl, Nat.le_max_left _ _, Nat.max_le.mpr ⟨by norm_num, Nat.min_le_left _ _⟩⟩

/-- Witness for C3 at hash 12345, attempt 3. -/
theorem c3_witness :
    1 ≤ 3 ∧ (calculate_python_backoff_delay 12345 3 = calculate_python_backoff_delay 12345 3 ∧
      100 ≤ calculate_python_backoff_delay 12345 3 ∧
      calculate_python_backoff_delay 12345 3 ≤ 15000) :=
  ⟨by decide, c3_backoff_deterministic_and_bounded 12345 3 (by decide)⟩

/-- C9: when the interpreter binary already exists, `ensure_python_extracted`
returns `Ok` immediately with an empty effect trace (no archive open/read, no
directory creation, no file write) and an unchanged filesystem. -/
theorem c9_bootstrap_fast_path (p : AppPaths) (fs : FS)
    (h : fs.pythonExeExists = true) :
    ensure_python_extracted p fs = (.ok (), [], fs) := by
  simp [ensure_python_extracted, h]

/-- Witness for C9 on the fixture filesystem with the binary present. -/
theorem c9_witness :
    fxFS.pythonExeExists = true ∧ ensure_python_extracted fxPaths fxFS = (.ok (), [], fxFS) :=
  ⟨rfl, c9_bootstrap_fast_path fxPaths fxFS rfl⟩

/-- C10: a batch call with an empty file list returns the dedicated error
with an empty effect trace — no validation result observed, no event emitted,
no bootstrap effect, no spawn. -/
theorem c10_batch_empty_list_rejected (env : BridgeEnv) (coll : Option String)
    (smart : Option Bool) :
    process_document_batch env [] coll smart =
      (.error "No files provided for batch processing", [], env.fs0) := rfl

/-- C8 counterexample: the path `a..b.txt` has the allowed extension `.txt`
and is free of the sanitizer's forbidden characters, yet `validate_file_path`
rejects it (the `..` substring check fires), so validation does not pass
unconditionally under the claim's hypotheses. -/
theorem c8_counterexample :
    ALLOWED_EXTENSIONS.contains ("." ++ asciiToLower "txt") = true ∧
    rustExtension "a..b.txt" = some "txt" ∧
    sanitize_python_args ["a..b.txt"] = .ok () ∧
    validate_file_path "a..b.txt" = .error "Invalid file path: path traversal detected" :=
  ⟨by decide, by decide, rfl, rfl⟩

/-- C8 amended: if additionally the file path contains no `..` substring and
none of the ten path-level forbidden characters, then a path with an allowed
extension and an argument list free of forbidden characters pass both checks:
`validate_file_path` and `sanitize_python_args` return `Ok`. -/
theorem c8_amended_clean_inputs_validate (fp : String) (args : List String)
    (ext : String)
    (h1 : strContains fp ".." = false)
    (h2 : PATH_DANGEROUS_CHARS.all (fun c => !strContainsChar fp c) = true)
    (h3 : rustExtension fp = some ext)
    (h4 : ALLOWED_EXTENSIONS.contains ("." ++ asciiToLower ext) = true)
    (h5 : args.all (fun arg => ARG_DANGEROUS_CHARS.all fun c => !strContainsChar arg c) = true) :
    validate_file_path fp = .ok () ∧ sanitize_python_args args = .ok () := by
  refine ⟨?_, sanitize_ok_of_clean args h5⟩
  have hfind : PATH_DANGEROUS_CHARS.find? (fun c => strContainsChar fp c) = none := by
    rw [List.find?_eq_none]
    intro c hc
    have hcl := List.all_eq_true.mp h2 c hc
    simp only [Bool.not_eq_true'] at hcl
    simp [hcl]
  have h4m : "." ++ asciiToLower ext ∈ ALLOWED_EXTENSIONS := by simpa using h4
  simp [validate_file_path, h1, hfind, h3, h4m]

/-- Witness for the amended C8 on a clean path and argument list. -/
theorem c8_amended_witness :
    (strContains "docs/file.txt" ".." = false ∧
      PATH_DANGEROUS_CHARS.all (fun c => !strContainsChar "docs/file.txt" c) = true ∧
      rustExtension "docs/file.txt" = some "txt" ∧
      ALLOWED_EXTENSIONS.contains ("." ++ asciiToLower "txt") = true ∧
      List.all ["--json"] (fun arg => ARG_DANGEROUS_CHARS.all fun c => !strContainsChar arg c) = true) ∧
    (validate_file_path "docs/file.txt" = .ok () ∧ sanitize_python_args ["--json"] = .ok ()) :=
  ⟨⟨by decide, by decide, by decide, by decide, by decide⟩,
    c8_amended_clean_inputs_validate "docs/file.txt" ["--json"] "txt"
      (by decide) (by decide) (by decide) (by decide) (by decide)⟩

/-- C5: a file path containing `..` is rejected with the path-traversal
validation error by both verbs that accept file paths: `process_document`
returns the error with an empty effect trace (zero spawns), and
`process_document_batch` on any list containing such a path fails with an
empty effect trace (zero spawns). -/
theorem c5_path_traversal_rejected_before_spawn (fp : String)
    (h : strContains fp ".." = true) :
    validate_file_path fp = .error "Invalid file path: path traversal detected" ∧
    (∀ env coll ocr pwd smart,
      process_document env fp coll ocr pwd smart =
        (.error "Invalid file path: path traversal detected", [], env.fs0)) ∧
    (∀ env (file_paths : List String) coll smart, fp ∈ file_paths →
      (process_document_batch env file_paths coll smart).1.isOk = false ∧
      (process_document_batch env file_paths coll smart).2.1 = [] ∧
      List.countP Eff.isSpawn (process_document_batch env file_paths coll smart).2.1 = 0) := by
  have hval : validate_file_path fp = .error "Invalid file path: path traversal detected" := by
    simp [validate_file_path, h]
  refine ⟨hval, ?_, ?_⟩
  · intro env coll ocr pwd smart
    simp [process_document, hval]
  · intro env file_paths coll smart hmem
    have hne : file_paths.isEmpty = false := by
      cases file_paths with
      | nil => simp at hmem
      | cons a l => rfl
    obtain ⟨e, he⟩ := validate_all_paths_err hmem
      (by simp [hval, Except.isOk, Except.toBool])
    simp [process_document_batch, hne, he, Except.isOk, Except.toBool]

/-- Witness for C5 at the spec's scenario path `../etc/passwd`. -/
theorem c5_witness :
    strContains "../etc/passwd" ".." = true ∧
    validate_file_path "../etc/passwd" = .error "Invalid file path: path traversal detected" ∧
    process_document fxEnv "../etc/passwd" none none none none =
      (.error "Invalid file path: path traversal detected", [], fxEnv.fs0) ∧
    (process_document_batch fxEnv ["../etc/passwd"] none none).1.isOk = false ∧
    (process_document_batch fxEnv ["../etc/passwd"] none none).2.1 = [] := by
  have h : strContains "../etc/passwd" ".." = true := by decide
  have hc := c5_path_traversal_rejected_before_spawn "../etc/passwd" h
  exact ⟨h, hc.1, hc.2.1 fxEnv none none none none,
    (hc.2.2 fxEnv ["../etc/passwd"] none none (List.mem_cons_self _ _)).1,
    (hc.2.2 fxEnv ["../etc/passwd"] none none (List.mem_cons_self _ _)).2.1⟩

/-- C4 counterexample: with the interpreter missing and the archive present,
a call whose argument list contains a forbidden character still performs the
full filesystem bootstrap (directory created, archive opened, entries
written) before argument sanitization fails — `ensure_python_extracted` runs
before `sanitize_python_args` in `execute_python_command`, so the claim's
"no archive extraction having been performed" is false. -/
theorem c4_counterexample :
    (sanitize_python_args [";"]).isOk = false ∧
    (execute_python_command fxPaths fxParse fxAttempt fxFSNoExe
        "document_processor.py" [";"] 300).1.isOk = false ∧
    ((execute_python_command fxPaths fxParse fxAttempt fxFSNoExe
        "document_processor.py" [";"] 300).2.1.any Eff.isOpenArchive = true ∧
      (execute_python_command fxPaths fxParse fxAttempt fxFSNoExe
        "document_processor.py" [";"] 300).2.1.any Eff.isWriteFile = true) :=
  ⟨rfl, rfl, rfl, rfl⟩

/-- C4 amended: argument sanitization runs after the filesystem bootstrap but
before any process spawn — if an argument contains a forbidden character the
call fails and zero processes are spawned, though archive extraction may
already have been performed. -/
theorem c4_amended_sanitize_fails_before_spawn (p : AppPaths)
    (parse : String → Option JValue) (a : AttemptEnv) (fs : FS)
    (script_name : String) (args : List String) (t : Nat) (e : String)
    (h : sanitize_python_args args = .error e) :
    (execute_python_command p parse a fs script_name args t).1.isOk = false ∧
    List.countP Eff.isSpawn (execute_python_command p parse a fs script_name args t).2.1 = 0 := by
  have hflat := ensure_effs_flat p fs
  unfold execute_python_command
  rcases hE : ensure_python_extracted p fs with ⟨r0, effs0, fs1⟩
  rw [hE] at hflat
  have h0 : List.countP Eff.isSpawn effs0 = 0 := (countP_zero_of_flat hflat).1
  cases r0 with
  | error e2 =>
    simp [List.countP_cons, h0, Except.isOk, Except.toBool, Eff.isSpawn]
  | ok u =>
    dsimp only
    simp [h, List.countP_cons, h0, Except.isOk, Except.toBool, Eff.isSpawn]

/-- Witness for the amended C4 with a semicolon argument. -/
theorem c4_amended_witness :
    sanitize_python_args [";"] =
      .error ("Invalid argument: forbidden character " ++ sq ++ ";" ++ sq
        ++ " detected in " ++ sq ++ ";" ++ sq) ∧
    ((execute_python_command fxPaths fxParse fxAttempt fxFS
        "document_processor.py" [";"] 300).1.isOk = false ∧
      List.countP Eff.isSpawn (execute_python_command fxPaths fxParse fxAttempt fxFS
        "document_processor.py" [";"] 300).2.1 = 0) :=
  ⟨rfl, c4_amended_sanitize_fails_before_spawn fxPaths fxParse fxAttempt fxFS
    "document_processor.py" [";"] 300 _ rfl⟩

/-- C6: when the spawn succeeded but the deadline elapses before the child
completes, the executor kills the child (final `killChild` effect) and returns
the timeout error; it never returns `Success`, and the partially collected
diagnostic buffer is not surfaced in the result. -/
theorem c6_timeout_kills_child_no_success (p : AppPaths)
    (parse : String → Option JValue) (a : AttemptEnv) (fs : FS)
    (script_name : String) (args : List String) (t : Nat)
    (effs0 : List Eff) (fs1 : FS)
    (hens : ensure_python_extracted p fs = (.ok (), effs0, fs1))
    (hexe : fs1.pythonExeExists = true) (hscript : fs1.scriptExists = true)
    (hsan : sanitize_python_args args = .ok ()) (hspawn : a.spawnOk = true)
    (htime : a.finishesInTime = false) :
    execute_python_command p parse a fs script_name args t =
      (.error ("Python command timed out after " ++ toString t ++ "s"),
        Eff.execCall t :: effs0
          ++ Eff.spawn (get_python_exe p) (get_python_scripts_path p ++ "/" ++ script_name) args
            :: ((a.child.stderrLines.take a.linesBeforeTimeout).filterMap
                  (classify_stderr_line parse)
              ++ [Eff.killChild]),
        fs1) ∧
    (∀ out : String, (execute_python_command p parse a fs script_name args t).1 ≠ .ok out) := by
  have hmain : execute_python_command p parse a fs script_name args t =
      (.error ("Python command timed out after " ++ toString t ++ "s"),
        Eff.execCall t :: effs0
          ++ Eff.spawn (get_python_exe p) (get_python_scripts_path p ++ "/" ++ script_name) args
            :: ((a.child.stderrLines.take a.linesBeforeTimeout).filterMap
                  (classify_stderr_line parse)
              ++ [Eff.killChild]),
        fs1) := by
    unfold execute_python_command
    rw [hens]
    dsimp only
    rw [hsan]
    dsimp only
    simp [hexe, hscript, hspawn, htime, stderr_drain_eq]
  refine ⟨hmain, ?_⟩
  intro out
  rw [hmain]
  simp

/-- Witness for C6 on a timed-out attempt over the fixture environment. -/
theorem c6_witness :
    (ensure_python_extracted fxPaths fxFS = (.ok (), [], fxFS) ∧
      fxFS.pythonExeExists = true ∧ fxFS.scriptExists = true ∧
      sanitize_python_args [] = .ok () ∧ fxAttemptTimeout.spawnOk = true ∧
      fxAttemptTimeout.finishesInTime = false) ∧
    execute_python_command fxPaths fxParse fxAttemptTimeout fxFS
        "document_processor.py" [] 300 =
      (.error ("Python command timed out after " ++ toString 300 ++ "s"),
        Eff.execCall 300 :: []
          ++ Eff.spawn (get_python_exe fxPaths)
              (get_python_scripts_path fxPaths ++ "/" ++ "document_processor.py") []
            :: ((fxAttemptTimeout.child.stderrLines.take fxAttemptTimeout.linesBeforeTimeout).filterMap
                  (classify_stderr_line fxParse)
              ++ [Eff.killChild]),
        fxFS) :=
  ⟨⟨rfl, rfl, rfl, rfl, rfl, rfl⟩,
    (c6_timeout_kills_child_no_success fxPaths fxParse fxAttemptTimeout fxFS
      "document_processor.py" [] 300 [] fxFS rfl rfl rfl rfl rfl rfl).1⟩

/-- C7: when the child exits non-zero within the deadline, every stderr line
whose JSON carries a true `progress` or `file_result` marker is forwarded as
an event (in order), and the failure message is built from the newline-join of
only the remaining lines — forwarded lines never appear in it. -/
theorem c7_progress_lines_excluded_from_failure (p : AppPaths)
    (parse : String → Option JValue) (a : AttemptEnv) (fs : FS)
    (script_name : String) (args : List String) (t : Nat)
    (effs0 : List Eff) (fs1 : FS) (code : Int)
    (hens : ensure_python_extracted p fs = (.ok (), effs0, fs1))
    (hexe : fs1.pythonExeExists = true) (hscript : fs1.scriptExists = true)
    (hsan : sanitize_python_args args = .ok ()) (hspawn : a.spawnOk = true)
    (htime : a.finishesInTime = true)
    (hcode : a.child.exitCode = some code) (hnz : code ≠ 0) :
    execute_python_command p parse a fs script_name args t =
      (.error ("Python process failed with exit code " ++ fmtOptInt (some code) ++ ": "
          ++ join_diagnostics (a.child.stderrLines.filter
              fun l => (classify_stderr_line parse l).isNone)),
        Eff.execCall t :: effs0
          ++ Eff.spawn (get_python_exe p) (get_python_scripts_path p ++ "/" ++ script_name) args
            :: a.child.stderrLines.filterMap (classify_stderr_line parse),
        fs1) := by
  unfold execute_python_command
  rw [hens]
  dsimp only
  rw [hsan]
  dsimp only
  simp [hexe, hscript, hspawn, htime, hcode, hnz, stderr_drain_eq, join_diagnostics]

/-- Witness for C7: child writes a progress line and a diagnostic line, then
exits 1; only the diagnostic line reaches the failure message, the progress
line is forwarded as an event. -/
theorem c7_witness :
    (ensure_python_extracted fxPaths fxFS = (.ok (), [], fxFS) ∧
      sanitize_python_args [] = .ok () ∧ fxAttemptFail.child.exitCode = some 1 ∧
      fxAttemptFail.finishesInTime = true) ∧
    execute_python_command fxPaths fxParseProg fxAttemptFail fxFS
        "document_processor.py" [] 60 =
      (.error ("Python process failed with exit code " ++ fmtOptInt (some 1) ++ ": "
          ++ join_diagnostics (fxAttemptFail.child.stderrLines.filter
              fun l => (classify_stderr_line fxParseProg l).isNone)),
        Eff.execCall 60 :: []
          ++ Eff.spawn (get_python_exe fxPaths)
              (get_python_scripts_path fxPaths ++ "/" ++ "document_processor.py") []
            :: fxAttemptFail.child.stderrLines.filterMap (classify_stderr_line fxParseProg),
        fxFS) :=
  ⟨⟨rfl, rfl, rfl, rfl⟩,
    c7_progress_lines_excluded_from_failure fxPaths fxParseProg fxAttemptFail fxFS
      "document_processor.py" [] 60 [] fxFS 1 rfl rfl rfl rfl rfl rfl rfl (by decide)⟩

/-- C2: when every attempt fails, the retry supervisor performs exactly 3
attempts, emits exactly 3 `python-error` events — each carrying its attempt
number and the configured maximum — sleeps a backoff delay between attempts,
and returns the single aggregated error naming the attempt count and the last
error; when an attempt succeeds (at attempt 1, 2 or 3) it returns that output
immediately, performing no further attempts. -/
theorem c2_retry_exhaustion_and_short_circuit (hashFn : Nat → Nat)
    (step : Nat → FS → Except String String × List Eff × FS) (fs0 : FS) :
    (∀ e1 v1 f1 e2 v2 f2 e3 v3 f3,
      step 1 fs0 = (.error e1, v1, f1) →
      step 2 f1 = (.error e2, v2, f2) →
      step 3 f2 = (.error e3, v3, f3) →
      execute_python_command_with_retry hashFn step fs0 =
        (.error ("Python command failed after 3 attempts: " ++ e3),
          v1 ++ Eff.emitPythonError (python_error_type e1) e1 1 3
            :: Eff.sleepMs (calculate_python_backoff_delay (hashFn 1) 1)
            :: (v2 ++ Eff.emitPythonError (python_error_type e2) e2 2 3
              :: Eff.sleepMs (calculate_python_backoff_delay (hashFn 2) 2)
              :: (v3 ++ [Eff.emitPythonError (python_error_type e3) e3 3 3])),
          f3) ∧
        (List.countP Eff.isPythonError v1 = 0 → List.countP Eff.isPythonError v2 = 0 →
          List.countP Eff.isPythonError v3 = 0 →
          List.countP Eff.isPythonError
            (execute_python_command_with_retry hashFn step fs0).2.1 = 3)) ∧
    (∀ out v1 f1,
      step 1 fs0 = (.ok out, v1, f1) →
      execute_python_command_with_retry hashFn step fs0 = (.ok out, v1, f1)) ∧
    (∀ e1 v1 f1 out v2 f2,
      step 1 fs0 = (.error e1, v1, f1) →
      step 2 f1 = (.ok out, v2, f2) →
      execute_python_command_with_retry hashFn step fs0 =
        (.ok out,
          v1 ++ Eff.emitPythonError (python_error_type e1) e1 1 3
            :: Eff.sleepMs (calculate_python_backoff_delay (hashFn 1) 1) :: v2,
          f2)) ∧
    (∀ e1 v1 f1 e2 v2 f2 out v3 f3,
      step 1 fs0 = (.error e1, v1, f1) →
      step 2 f1 = (.error e2, v2, f2) →
      step 3 f2 = (.ok out, v3, f3) →
      execute_python_command_with_retry hashFn step fs0 =
        (.ok out,
          v1 ++ Eff.emitPythonError (python_error_type e1) e1 1 3
            :: Eff.sleepMs (calculate_python_backoff_delay (hashFn 1) 1)
            :: (v2 ++ Eff.emitPythonError (python_error_type e2) e2 2 3
              :: Eff.sleepMs (calculate_python_backoff_delay (hashFn 2) 2) :: v3),
          f3)) := by
  have hrange : List.range' 1 PYTHON_MAX_RETRIES = [1, 2, 3] := rfl
  refine ⟨?_, ?_, ?_, ?_⟩
  · intro e1 v1 f1 e2 v2 f2 e3 v3 f3 h1 h2 h3
    have htr : execute_python_command_with_retry hashFn step fs0 =
        (.error ("Python command failed after 3 attempts: " ++ e3),
          v1 ++ Eff.emitPythonError (python_error_type e1) e1 1 3
            :: Eff.sleepMs (calculate_python_backoff_delay (hashFn 1) 1)
            :: (v2 ++ Eff.emitPythonError (python_error_type e2) e2 2 3
              :: Eff.sleepMs (calculate_python_backoff_delay (hashFn 2) 2)
              :: (v3 ++ [Eff.emitPythonError (python_error_type e3) e3 3 3])),
          f3) := by
      unfold execute_python_command_with_retry
      rw [hrange]
      simp [retry_loop, h1, h2, h3, PYTHON_MAX_RETRIES]
      rfl
    refine ⟨htr, ?_⟩
    intro hv1 hv2 hv3
    rw [htr]
    simp [List.countP_append, List.countP_cons, hv1, hv2, hv3, Eff.isPythonError]
  · intro out v1 f1 h1
    unfold execute_python_command_with_retry
    rw [hrange]
    simp [retry_loop, h1]
  · intro e1 v1 f1 out v2 f2 h1 h2
    unfold execute_python_command_with_retry
    rw [hrange]
    simp [retry_loop, h1, h2, PYTHON_MAX_RETRIES]
  · intro e1 v1 f1 e2 v2 f2 out v3 f3 h1 h2 h3
    unfold execute_python_command_with_retry
    rw [hrange]
    simp [retry_loop, h1, h2, h3, PYTHON_MAX_RETRIES]

/-- Witness for C2: a step failing with `boom` on every attempt exhausts the
three attempts, emits the three classified events with their backoff sleeps,
and aggregates the last error. -/
theorem c2_witness :
    fxStepFail 1 fxFS = (.error "boom", [], fxFS) ∧
    execute_python_command_with_retry (fun _ => 0) fxStepFail fxFS =
      (.error "Python command failed after 3 attempts: boom",
        [Eff.emitPythonError "execution_error" "boom" 1 3, Eff.sleepMs 750,
          Eff.emitPythonError "execution_error" "boom" 2 3, Eff.sleepMs 1500,
          Eff.emitPythonError "execution_error" "boom" 3 3],
        fxFS) :=
  ⟨rfl,
    ((c2_retry_exhaustion_and_short_circuit (fun _ => 0) fxStepFail fxFS).1
      "boom" [] fxFS "boom" [] fxFS "boom" [] fxFS rfl rfl rfl).1⟩

/-- C1: for a validated batch of `n ≥ 1` files, `process_document_batch`
computes the child-process deadline `min (300 + 120 * n) 3600` seconds and
invokes `execute_python_command` exactly once — one `execCall` marker in the
whole trace, carrying exactly that deadline, whatever the executor outcome
(no retry on failure). -/
theorem c1_batch_deadline_and_single_invocation (env : BridgeEnv)
    (file_paths : List String) (coll : Option String) (smart : Option Bool)
    (n : Nat) (hn : file_paths.length = n) (hpos : 1 ≤ n)
    (hval : validate_all_paths file_paths = .ok ()) :
    List.countP Eff.isExecCall (process_document_batch env file_paths coll smart).2.1 = 1 ∧
    Eff.execCall (min (300 + 120 * n) 3600) ∈
      (process_document_batch env file_paths coll smart).2.1 := by
  subst hn
  have hne : file_paths.isEmpty = false := by
    cases file_paths with
    | nil => simp at hpos
    | cons a l => rfl
  have hm := execute_trace_marker env.paths env.parse (env.attempts 1) env.fs0
    "document_processor.py"
    (batch_args (get_chromadb_dir env.paths) file_paths coll smart)
    (batch_timeout_secs file_paths.length)
  simp only [process_document_batch, hne, Bool.false_eq_true, if_false, hval]
  split
  · rename_i r effs fs1 e heq
    rw [heq] at hm
    refine ⟨?_, ?_⟩
    · simp [List.countP_cons, hm.1, Eff.isExecCall]
    · exact List.mem_cons_of_mem _ (by simpa [batch_timeout_secs] using hm.2.1)
  · rename_i r effs fs1 output heq
    rw [heq] at hm
    split
    · refine ⟨?_, ?_⟩
      · simp [List.countP_cons, hm.1, Eff.isExecCall]
      · exact List.mem_cons_of_mem _ (by simpa [batch_timeout_secs] using hm.2.1)
    · refine ⟨?_, ?_⟩
      · simp [List.countP_cons, List.countP_append, hm.1, Eff.isExecCall]
      · exact List.mem_cons_of_mem _
          (List.mem_append_left _ (by simpa [batch_timeout_secs] using hm.2.1))

/-- Witness for C1 at the spec's 10-file scenario: deadline 1500s, one
executor invocation. -/
theorem c1_witness :
    (fxFiles.length = 10 ∧ 1 ≤ 10 ∧ validate_all_paths fxFiles = .ok ()) ∧
    (List.countP Eff.isExecCall (process_document_batch fxEnv fxFiles none none).2.1 = 1 ∧
      Eff.execCall (min (300 + 120 * 10) 3600) ∈
        (process_document_batch fxEnv fxFiles none none).2.1) :=
  ⟨⟨rfl, by decide, rfl⟩,
    c1_batch_deadline_and_single_invocation fxEnv fxFiles none none 10 rfl (by decide) rfl⟩

end PythonBridge
